import Mathlib

/-!
Shallow embedding of the response-validation and error-classification pipeline
of the greenify service (`service/gemini_client.py` and `service/app.py`).

Python `dict`s produced by `json.loads` are modelled as association lists of
string keys and `Json` values; Python numbers are modelled as rationals;
`json.loads` itself is an external library call and is modelled as an abstract
parameter `parse : String → Option Json` (`none` = `json.JSONDecodeError`).
String helpers (`lower`, `strip`, substring membership, `float()` coercion of
decimal literals) are implemented over character lists so that everything
evaluates by `rfl`/`decide`.
-/

set_option autoImplicit false

namespace Greenify

/-! ### String helpers (models of Python `str.lower`, `str.strip`, `in`, `float`) -/

/-- ASCII lower-casing of a character (the failure texts handled by the code
are ASCII, so this models Python `str.lower` on them). -/
def lcChar (c : Char) : Char :=
  if 'A' ≤ c ∧ c ≤ 'Z' then Char.ofNat (c.toNat + 32) else c

/-- Model of Python `str.lower`. -/
def lcString (s : String) : String := ⟨s.data.map lcChar⟩

/-- Whitespace test used by the model of Python `str.strip`. -/
def isWs (c : Char) : Bool := c = ' ' ∨ c = '\t' ∨ c = '\n' ∨ c = '\r'

/-- Model of Python `str.strip` on a character list. -/
def trimL (l : List Char) : List Char :=
  ((l.dropWhile isWs).reverse.dropWhile isWs).reverse

/-- `isPrefixL pat l` : `pat` is a prefix of `l`. -/
def isPrefixL : List Char → List Char → Bool
  | [], _ => true
  | _ :: _, [] => false
  | p :: ps, c :: cs => p = c && isPrefixL ps cs

/-- `containsL pat l` : `pat` occurs as a contiguous sublist of `l`. -/
def containsL (pat : List Char) : List Char → Bool
  | [] => isPrefixL pat []
  | c :: cs => isPrefixL pat (c :: cs) || containsL pat cs

/-- Model of Python `pat in s` on strings. -/
def strContains (s pat : String) : Bool := containsL pat.data s.data

/-- Digit test. -/
def isDigit (c : Char) : Bool := '0' ≤ c ∧ c ≤ '9'

/-- Numeric value of a digit character. -/
def digVal (c : Char) : Nat := c.toNat - 48

/-- Natural number denoted by a digit list. -/
def natOfDigits (l : List Char) : Nat := l.foldl (fun n c => 10 * n + digVal c) 0

/-- Parse an unsigned decimal literal (`"12"`, `"1.5"`, `".5"`, `"2."`).
This models Python `float()` on plain decimal literals; exponent forms,
digit underscores and `inf`/`nan` spellings are outside the model (the code
only uses the parsed value for an in-`[0,1]` range test, and every such
omitted form either fails the range test or fails to parse, both of which
the code maps to the same `0.5` default). -/
def parseDecCore (l : List Char) : Option ℚ :=
  let ip := l.takeWhile isDigit
  match l.dropWhile isDigit with
  | [] => if ip.isEmpty then none else some (natOfDigits ip)
  | '.' :: frac =>
    if frac.all isDigit && !(ip.isEmpty && frac.isEmpty) then
      some ((natOfDigits ip : ℚ) + (natOfDigits frac : ℚ) / (10 ^ frac.length))
    else none
  | _ => none

/-- Model of Python `float(s)` on a string: strips whitespace, allows a sign. -/
def parseDec (s : String) : Option ℚ :=
  match trimL s.data with
  | '-' :: rest => (parseDecCore rest).map (fun q => -q)
  | '+' :: rest => parseDecCore rest
  | l => parseDecCore l

/-! ### JSON values (the result of `json.loads`) -/

/-- JSON values; objects are association lists (Python dict insertion order). -/
inductive Json where
  | null : Json
  | bool (b : Bool) : Json
  | num (q : ℚ) : Json
  | str (s : String) : Json
  | arr (elts : List Json) : Json
  | obj (fields : List (String × Json)) : Json

/-- Python truthiness of a JSON value. -/
def falsy : Json → Bool
  | .null => true
  | .bool b => !b
  | .num q => decide (q = 0)
  | .str s => s.data.isEmpty
  | .arr l => l.isEmpty
  | .obj o => o.isEmpty

/-- `isinstance(v, str)`. -/
def isStr : Json → Bool
  | .str _ => true
  | _ => false

/-- First-occurrence key lookup in an object's fields (Python `d[k]` / `k in d`). -/
def jlookup (k : String) : List (String × Json) → Option Json
  | [] => none
  | (k', v) :: rest => if k' = k then some v else jlookup k rest

/-- Python `d[k] = v`: replace the value at `k` in place, or append a new entry. -/
def setKey (k : String) (v : Json) : List (String × Json) → List (String × Json)
  | [] => [(k, v)]
  | (k', v') :: rest =>
    if k' = k then (k', v) :: rest else (k', v') :: setKey k v rest

/-- Python `d.setdefault(k, v)`. -/
def setdefault (k : String) (v : Json) (o : List (String × Json)) :
    List (String × Json) :=
  match jlookup k o with
  | some _ => o
  | none => setKey k v o

/-- Key lookup through a JSON value (`none` when the value is not an object). -/
def jget (j : Json) (k : String) : Option Json :=
  match j with
  | .obj o => jlookup k o
  | _ => none

/-- Model of Python `float(v)` on a JSON value: numbers pass through, booleans
coerce to 0/1, strings are parsed as decimal literals, everything else raises
(`none`). -/
def pfloat : Json → Option ℚ
  | .num q => some q
  | .bool b => some (if b then 1 else 0)
  | .str s => parseDec s
  | _ => none

/-! ### Basic lemmas about the object operations -/

theorem jlookup_setKey_self (k : String) (v : Json) (o : List (String × Json)) :
    jlookup k (setKey k v o) = some v := by
  induction o with
  | nil => simp [setKey, jlookup]
  | cons hd tl ih =>
    obtain ⟨k', v'⟩ := hd
    by_cases h : k' = k <;> simp [setKey, jlookup, h, ih]

theorem jlookup_setKey_ne {k k' : String} (h : k ≠ k') (v : Json)
    (o : List (String × Json)) : jlookup k (setKey k' v o) = jlookup k o := by
  induction o with
  | nil => simp [setKey, jlookup, Ne.symm h]
  | cons hd tl ih =>
    obtain ⟨k₀, v₀⟩ := hd
    by_cases h1 : k₀ = k' <;> by_cases h2 : k₀ = k <;>
      simp_all [setKey, jlookup]

theorem setKey_of_jlookup {k : String} {v : Json} {o : List (String × Json)}
    (h : jlookup k o = some v) : setKey k v o = o := by
  induction o with
  | nil => simp [jlookup] at h
  | cons hd tl ih =>
    obtain ⟨k', v'⟩ := hd
    by_cases hk : k' = k
    · simp [jlookup, hk] at h
      simp [setKey, hk, h]
    · simp [jlookup, hk] at h
      simp [setKey, hk, ih h]

/-! ### Fallback content (`GeminiClient._get_fallback_plants`) -/

/-- Fields of the first fallback plant from `_get_fallback_plants`. -/
def spiderPlantFields : List (String × Json) :=
  [ ("name", .str "Spider Plant"),
    ("image", .str ""),
    ("superimposed_image", .str ""),
    ("description", .str "Hardy indoor plant that adapts well to various lighting conditions and is easy to care for."),
    ("care_instructions", .str "Water when soil feels dry, prefers bright indirect light, well-draining soil."),
    ("care_tips", .str "Remove brown tips, propagate plantlets for new plants, rotate occasionally for even growth."),
    ("AR_model", .str ""),
    ("placement_confidence", .num (7/10)) ]

/-- First fallback plant from `_get_fallback_plants`. -/
def spiderPlant : Json := .obj spiderPlantFields

/-- Fields of the second fallback plant from `_get_fallback_plants`. -/
def pothosPlantFields : List (String × Json) :=
  [ ("name", .str "Pothos"),
    ("image", .str ""),
    ("superimposed_image", .str ""),
    ("description", .str "Versatile trailing plant that thrives in low to medium light and is very forgiving."),
    ("care_instructions", .str "Water when top inch of soil is dry, tolerates low light, standard potting mix."),
    ("care_tips", .str "Trim to encourage bushier growth, can grow in water or soil, wipe leaves occasionally."),
    ("AR_model", .str ""),
    ("placement_confidence", .num (4/5)) ]

/-- Second fallback plant from `_get_fallback_plants`. -/
def pothosPlant : Json := .obj pothosPlantFields

/-- Fields of the third fallback plant from `_get_fallback_plants`. -/
def snakePlantFields : List (String × Json) :=
  [ ("name", .str "Snake Plant"),
    ("image", .str ""),
    ("superimposed_image", .str ""),
    ("description", .str "Low-maintenance succulent that tolerates neglect and various lighting conditions."),
    ("care_instructions", .str "Water sparingly, allow soil to dry completely between waterings, tolerates low light."),
    ("care_tips", .str "Avoid overwatering, clean leaves with damp cloth, divide to propagate new plants."),
    ("AR_model", .str ""),
    ("placement_confidence", .num (3/5)) ]

/-- Third fallback plant from `_get_fallback_plants`. -/
def snakePlant : Json := .obj snakePlantFields

/-- `GeminiClient._get_fallback_plants`. -/
def fallbackPlants : List Json := [spiderPlant, pothosPlant, snakePlant]

/-! ### Lenient per-plant validator (`_validate_comprehensive_plant_data`)

The Python validator mutates the plant dict in place; the embedding threads
the association list through the same sequence of updates and returns the
repaired object (`none` models the `GeminiAPIError` raised for non-dict
records, which makes the caller drop the record). -/

/-- The four required fields and their canonical defaults, in the dict order
of `required_fields` in the source. -/
def requiredFieldDefaults : List (String × String) :=
  [ ("name", "Unknown Plant"),
    ("description", "Plant information not available."),
    ("care_instructions", "Follow general plant care guidelines."),
    ("care_tips", "Monitor plant health and adjust care as needed.") ]

/-- One step of the required-field repair loop:
`if field not in plant or not plant[field] or not isinstance(plant[field], str):
plant[field] = default_value`. -/
def fixField (f d : String) (o : List (String × Json)) : List (String × Json) :=
  match jlookup f o with
  | none => setKey f (.str d) o
  | some v => if falsy v || !isStr v then setKey f (.str d) o else o

/-- `superimposed_image` repair:
`if 'superimposed_image' not in plant or not isinstance(..., str): ... = ''`. -/
def superFix (o : List (String × Json)) : List (String × Json) :=
  match jlookup "superimposed_image" o with
  | none => setKey "superimposed_image" (.str "") o
  | some v => if !isStr v then setKey "superimposed_image" (.str "") o else o

/-- The value `placement_confidence` ends up with: `0.5` when the key is
missing, `float()` fails, or the coerced value is outside `[0,1]`; otherwise
the coerced value. -/
def confResult (o : List (String × Json)) : ℚ :=
  match jlookup "placement_confidence" o with
  | none => 1/2
  | some c =>
    match pfloat c with
    | none => 1/2
    | some q => if q < 0 ∨ 1 < q then 1/2 else q

/-- The `placement_confidence` clause of the validator (missing key → `0.5`;
`float()` coercion; out-of-`[0,1]` or uncoercible → `0.5`). -/
def confFix (o : List (String × Json)) : List (String × Json) :=
  setKey "placement_confidence" (.num (confResult o)) o

/-- Final pass of the validator:
`if not plant[field].strip(): plant[field] = required_fields[field]`.
After `fixField` the field is always a string; the non-string match arms are
unreachable and modelled as the identity. -/
def stripFix (f d : String) (o : List (String × Json)) : List (String × Json) :=
  match jlookup f o with
  | some (.str s) => if (trimL s.data).isEmpty then setKey f (.str d) o else o
  | _ => o

/-- `GeminiClient._validate_comprehensive_plant_data`, fused with the caller's
drop-on-failure loop: non-dict records raise (`none`), every other record is
repaired in place and kept. -/
def validatePlant : Json → Option Json
  | .obj o =>
    let o := fixField "name" "Unknown Plant" o
    let o := fixField "description" "Plant information not available." o
    let o := fixField "care_instructions" "Follow general plant care guidelines." o
    let o := fixField "care_tips" "Monitor plant health and adjust care as needed." o
    let o := setdefault "image" (.str "") o
    let o := setdefault "AR_model" (.str "") o
    let o := superFix o
    let o := confFix o
    let o := stripFix "name" "Unknown Plant" o
    let o := stripFix "description" "Plant information not available." o
    let o := stripFix "care_instructions" "Follow general plant care guidelines." o
    let o := stripFix "care_tips" "Monitor plant health and adjust care as needed." o
    some (.obj o)
  | _ => none

/-! ### Fallback response (`_create_comprehensive_fallback_response`) -/

/-- The fixed keyword scan of `_create_comprehensive_fallback_response`
(each keyword is looked up in `response_text.lower()`). -/
def containsAnyKeyword (t : String) : Bool :=
  ["plant", "grow", "suitable", "recommend"].any
    (fun kw => strContains (lcString t) kw)

/-- Generic default description of `_create_comprehensive_fallback_response`. -/
def genericFallbackDescription : String :=
  "Location analysis completed, but detailed parsing failed. The area appears suitable for plant growth based on available information."

/-- Keyword-hit default description of `_create_comprehensive_fallback_response`. -/
def partialFallbackDescription : String :=
  "Location analysis completed with some details available. Basic plant recommendations provided."

/-- `GeminiClient._create_comprehensive_fallback_response`. -/
def fallbackResponse (t : String) : Json :=
  let description :=
    if !t.data.isEmpty && !(trimL t.data).isEmpty && containsAnyKeyword t then
      partialFallbackDescription
    else genericFallbackDescription
  .obj [("description", .str description), ("plants", .arr fallbackPlants)]

/-! ### Comprehensive response processing (`_process_comprehensive_response`) -/

/-- Default description inserted when the parsed object has no
`description` key. -/
def limitedDetailsDescription : String :=
  "Location analysis completed with limited details available."

/-- `if 'description' not in parsed_response: parsed_response['description'] = ...`. -/
def ensureDescription (o : List (String × Json)) : List (String × Json) :=
  if (jlookup "description" o).isNone then
    setKey "description" (.str limitedDetailsDescription) o
  else o

/-- `if 'plants' not in parsed_response: parsed_response['plants'] = self._get_fallback_plants()`. -/
def ensurePlants (o : List (String × Json)) : List (String × Json) :=
  if (jlookup "plants" o).isNone then
    setKey "plants" (.arr fallbackPlants) o
  else o

/-- Validate-and-clean stage of `_process_comprehensive_response`:
`plants = parsed_response.get('plants', [])`; a non-list value or a list with
no surviving records becomes the fallback set, otherwise the survivors are
kept. -/
def processPlantsStage (o : List (String × Json)) : Json :=
  match (jlookup "plants" o).getD (.arr []) with
  | .arr l =>
    if (l.filterMap validatePlant).isEmpty then
      .obj (setKey "plants" (.arr fallbackPlants) o)
    else .obj (setKey "plants" (.arr (l.filterMap validatePlant)) o)
  | _ => .obj (setKey "plants" (.arr fallbackPlants) o)

/-- Body of `_process_comprehensive_response` after a successful
`json.loads` returning a dict: ensure `description` and `plants`, then
validate/replace the plant list. -/
def processParsedObj (o : List (String × Json)) : Json :=
  processPlantsStage (ensurePlants (ensureDescription o))

/-- One part of the upstream response; `text = none` models the
`AttributeError` raised when accessing `.text`. -/
structure Part where
  text : Option String

/-- The `content` object of a candidate. -/
structure Content where
  parts : List Part

/-- One candidate of the upstream response; `content = none` models a falsy
`content` attribute. -/
structure Candidate where
  content : Option Content

/-- The raw upstream response object (a `none` at the outer `Option` models
`response` being `None`/falsy). -/
structure RawResponse where
  candidates : List Candidate

/-- Structural-validation and text-extraction prefix of
`_process_comprehensive_response`: either the argument string of the early
`_create_comprehensive_fallback_response` call, or the extracted non-blank
response text. -/
def extractStage (resp : Option RawResponse) : Except String String :=
  match resp with
  | none => .error "No response received"
  | some r =>
    match r.candidates with
    | [] => .error "Invalid response structure"
    | c :: _ =>
      match c.content with
      | none => .error "Empty response content"
      | some ct =>
        match ct.parts with
        | [] => .error "Empty response content"
        | p :: _ =>
          match p.text with
          | none => .error "Failed to extract response"
          | some t =>
            if t.data.isEmpty || (trimL t.data).isEmpty then
              .error "Empty response text"
            else .ok t

/-- JSON-parsing dispatch of `_process_comprehensive_response`: `parse`
abstracts `json.loads` (`none` = `JSONDecodeError`); parse failures and
non-dict values degrade to `fallbackResponse`. The composed function is
total, mirroring the source, whose outer `except` clause converts any
residual failure into the same fallback. -/
def parseStage (t : String) (parse : String → Option Json) : Json :=
  match parse t with
  | none => fallbackResponse t
  | some (.obj o) => processParsedObj o
  | some _ => fallbackResponse "Invalid response format"

/-- `GeminiClient._process_comprehensive_response`, extraction plus parsing. -/
def processComprehensiveResponse (resp : Option RawResponse)
    (parse : String → Option Json) : Json :=
  match extractStage resp with
  | .error reason => fallbackResponse reason
  | .ok t => parseStage t parse

/-- Number of entries of the `plants` field of a result object. -/
def plantsCount (j : Json) : Nat :=
  match jget j "plants" with
  | some (.arr l) => l.length
  | _ => 0

/-! ### Error classification (`GeminiClient.handle_api_errors`) -/

/-- The shape of every error payload built by the service:
`{"description": ..., "plants": [...], "error": ...}`. -/
structure ErrResponse where
  description : String
  plants : List Json
  error : String

/-- `any(term in error_lower for term in terms)`. -/
def containsAny (msg : String) (terms : List String) : Bool :=
  terms.any (fun t => strContains msg t)

/-- `GeminiClient.handle_api_errors`. The argument is `str(error)`; `none`
models `str(error)` itself raising, which lands in the method's own
last-resort `except` clause. -/
def handleApiErrors (msg : Option String) : ErrResponse :=
  match msg with
  | none =>
    { description := "Unable to analyze location at this time. Please try again.",
      plants := [],
      error := "Service temporarily unavailable. Please try again later." }
  | some m =>
    let ml := lcString m
    if containsAny ml ["auth", "credential", "api key", "permission"] then
      { description := "Unable to authenticate with plant analysis service. Please try again later.",
        plants := [],
        error := "Authentication failed. Please contact support if this persists." }
    else if containsAny ml ["quota", "rate limit", "too many requests", "limit exceeded"] then
      { description := "Plant analysis service is currently experiencing high demand. Please try again in a few minutes.",
        plants := fallbackPlants,
        error := "Service temporarily unavailable due to high demand. Please try again shortly." }
    else if containsAny ml ["network", "connection", "timeout", "unreachable", "dns"] then
      { description := "Unable to connect to plant analysis service. Please check your internet connection and try again.",
        plants := fallbackPlants,
        error := "Network connection issue. Please check your internet connection and try again." }
    else if containsAny ml ["json", "parse", "format", "decode", "malformed"] then
      { description := "Plant analysis completed, but response formatting failed. Basic recommendations provided.",
        plants := fallbackPlants,
        error := "Response processing issue. Basic plant suggestions provided." }
    else if containsAny ml ["image", "invalid format", "decode", "corrupt"] then
      { description := "Unable to process the uploaded image. Please try with a different image.",
        plants := [],
        error := "Image processing failed. Please try uploading a different image." }
    else if containsAny ml ["unavailable", "not found", "404", "503", "service"] then
      { description := "Plant analysis service is temporarily unavailable. Basic recommendations provided.",
        plants := fallbackPlants,
        error := "Analysis service temporarily unavailable. Please try again later." }
    else
      { description := "Plant analysis encountered an issue, but basic recommendations are available.",
        plants := fallbackPlants,
        error := "Analysis service encountered an issue. Basic plant suggestions provided." }

/-- The spec's closed error taxonomy (`ErrorKind`). -/
inductive ErrorKind where
  | auth | quota | network | malformed | imageInvalid | serviceUnavailable | general
deriving DecidableEq

/-- The spec's reading of the classifier: the kind whose term list matches the
lower-cased failure text first, in the branch order of
`handle_api_errors`. Written from the spec's words, to be compared with
`handleApiErrors` (which is written from the source). -/
def classifyKind (m : String) : ErrorKind :=
  let ml := lcString m
  if containsAny ml ["auth", "credential", "api key", "permission"] then .auth
  else if containsAny ml ["quota", "rate limit", "too many requests", "limit exceeded"] then .quota
  else if containsAny ml ["network", "connection", "timeout", "unreachable", "dns"] then .network
  else if containsAny ml ["json", "parse", "format", "decode", "malformed"] then .malformed
  else if containsAny ml ["image", "invalid format", "decode", "corrupt"] then .imageInvalid
  else if containsAny ml ["unavailable", "not found", "404", "503", "service"] then .serviceUnavailable
  else .general

/-- Fallback content per kind, as produced by the matching branch of
`handle_api_errors`. -/
def contentFor : ErrorKind → ErrResponse
  | .auth =>
    { description := "Unable to authenticate with plant analysis service. Please try again later.",
      plants := [],
      error := "Authentication failed. Please contact support if this persists." }
  | .quota =>
    { description := "Plant analysis service is currently experiencing high demand. Please try again in a few minutes.",
      plants := fallbackPlants,
      error := "Service temporarily unavailable due to high demand. Please try again shortly." }
  | .network =>
    { description := "Unable to connect to plant analysis service. Please check your internet connection and try again.",
      plants := fallbackPlants,
      error := "Network connection issue. Please check your internet connection and try again." }
  | .malformed =>
    { description := "Plant analysis completed, but response formatting failed. Basic recommendations provided.",
      plants := fallbackPlants,
      error := "Response processing issue. Basic plant suggestions provided." }
  | .imageInvalid =>
    { description := "Unable to process the uploaded image. Please try with a different image.",
      plants := [],
      error := "Image processing failed. Please try uploading a different image." }
  | .serviceUnavailable =>
    { description := "Plant analysis service is temporarily unavailable. Basic recommendations provided.",
      plants := fallbackPlants,
      error := "Analysis service temporarily unavailable. Please try again later." }
  | .general =>
    { description := "Plant analysis encountered an issue, but basic recommendations are available.",
      plants := fallbackPlants,
      error := "Analysis service encountered an issue. Basic plant suggestions provided." }

/-- The transport-status table asserted by the spec for each kind
(modelled from the spec's words: Auth=401, Quota=429,
Network/ServiceUnavailable=503, ImageInvalid=400, General/Malformed=500). -/
def kindStatus : ErrorKind → Nat
  | .auth => 401
  | .quota => 429
  | .network => 503
  | .malformed => 500
  | .imageInvalid => 400
  | .serviceUnavailable => 503
  | .general => 500

/-- Status selection in the `/answer` handler (`app.py`), keyed on the
exception's `error_type` attribute. -/
def statusOf (errorType : String) : Nat :=
  if errorType = "auth" then 401
  else if errorType = "quota" then 429
  else if errorType = "network" ∨ errorType = "api" then 503
  else if errorType = "validation" ∨ errorType = "image" then 400
  else 500

/-- The `error_type` tag attached to failures of the
`model.generate_content` call in `analyze_image_and_recommend_plants`. -/
def categorizeApiError (msg : String) : String :=
  let ml := lcString msg
  if strContains ml "quota" || strContains ml "rate limit" then "quota"
  else if strContains ml "network" || strContains ml "connection" then "network"
  else if strContains ml "auth" || strContains ml "permission" then "auth"
  else "api"

/-! ### Image preparation (`_prepare_image_for_api`, size/format stage)

The claims start from the already-decoded byte payload, so the model starts
after `base64.b64decode`: a decoded payload is its byte length together with
whether `PIL.Image.open(...).verify()` accepts the bytes (and the message of
the PIL exception when it does not). -/

/-- `10 * 1024 * 1024` from the size check. -/
def imageSizeLimit : Nat := 10 * 1024 * 1024

/-- A decoded image payload, as seen by the format/size stage. -/
structure DecodedImage where
  byteLen : Nat
  pilLoadable : Bool
  pilErrMsg : String

/-- The message of the oversize error. -/
def tooLargeMsg : String := "Image file too large (max 10MB)"

/-- Format/size stage of `_prepare_image_for_api`: `Image.open` + `verify`
run first, so an unloadable payload raises before the size check; the inner
`except` re-raises errors whose text contains `"too large"` and wraps every
other failure as a corrupted-format error (a re-raised non-`GeminiAPIError`
is then wrapped by the outer `except` as a prepare failure). Errors are
`(message, error_type)` pairs. -/
def prepareDecodedImage (d : DecodedImage) : Except (String × String) Unit :=
  if d.pilLoadable then
    if imageSizeLimit < d.byteLen then .error (tooLargeMsg, "image")
    else .ok ()
  else if strContains d.pilErrMsg "too large" then
    .error ("Failed to prepare image: " ++ d.pilErrMsg, "image")
  else
    .error ("Invalid or corrupted image format: " ++ d.pilErrMsg, "image")

/-! ### The `/answer` handler (`app.py`) -/

/-- Result of one `/answer` request: response body, HTTP status, and whether
the comprehensive Gemini analysis call was reached. -/
structure HttpResult where
  body : Json
  status : Nat
  analyzeInvoked : Bool

/-- Serialize an error payload the way `jsonify` does. -/
def errToJson (e : ErrResponse) : Json :=
  .obj [ ("description", .str e.description),
         ("plants", .arr e.plants),
         ("error", .str e.error) ]

/-- `"k" in data` for a JSON request body; `none` models the `TypeError`
raised by `in` on numbers/booleans, which the endpoint's outer `except`
turns into a 500. -/
def jsonContains : Json → String → Option Bool
  | .obj o, k => some (jlookup k o).isSome
  | .arr l, k => some (l.any (fun j => match j with | .str s => s = k | _ => false))
  | .str s, k => some (strContains s k)
  | _, _ => none

/-- `data["k"]` for a JSON request body; `none` models the `TypeError` or
`KeyError` raised by string indexing of non-dict values, which the outer
`except` turns into a 500. -/
def jsonGet2 : Json → String → Option Json
  | .obj o, k => jlookup k o
  | _, _ => none

/-- Body of the 400 response for an absent/falsy request body. -/
def noDataBody : ErrResponse :=
  { description := "Invalid request data.", plants := [],
    error := "No data provided in request." }

/-- Body of the 400 response for missing `image`/`location` keys. -/
def missingFieldsBody : ErrResponse :=
  { description := "Missing required fields.", plants := [],
    error := "Image and location data are required." }

/-- Body of the 400 response for a malformed `location` value. -/
def invalidLocationBody : ErrResponse :=
  { description := "Invalid location format.", plants := [],
    error := "Location must be a list with at least latitude and longitude." }

/-- Body of the 503 response when client construction fails. -/
def initFailedBody : ErrResponse :=
  { description := "Plant analysis service is currently unavailable. Please try again later.",
    plants := [],
    error := "Service initialization failed. Please try again later." }

/-- Body of the endpoint's catch-all 500 response. -/
def unexpectedBody : ErrResponse :=
  { description := "Unable to analyze location at this time. Please try again.",
    plants := [],
    error := "An unexpected error occurred. Please try again." }

/-- The `/answer` endpoint of `app.py`. `data` is the parsed request body
(`none` = `request.get_json()` returned nothing), `clientOk` abstracts
whether `create_gemini_client()` succeeds, and `analyze` abstracts the
outcome of `analyze_image_and_recommend_plants` (`.error (msg, ty)` is a
`GeminiAPIError` with message `msg` and `error_type` `ty`). -/
def answer (data : Option Json) (clientOk : Bool)
    (analyze : Except (String × String) Json) : HttpResult :=
  match data with
  | none => ⟨errToJson noDataBody, 400, false⟩
  | some d =>
    if falsy d then ⟨errToJson noDataBody, 400, false⟩
    else
      match jsonContains d "image", jsonContains d "location" with
      | some bi, some bl =>
        if !bi || !bl then ⟨errToJson missingFieldsBody, 400, false⟩
        else
          match jsonGet2 d "image", jsonGet2 d "location" with
          | some _, some loc =>
            (match loc with
             | .arr l =>
               if l.length < 2 then ⟨errToJson invalidLocationBody, 400, false⟩
               else if !clientOk then ⟨errToJson initFailedBody, 503, false⟩
               else
                 match analyze with
                 | .ok j => ⟨j, 200, true⟩
                 | .error (m, ty) =>
                   ⟨errToJson (handleApiErrors (some m)), statusOf ty, true⟩
             | _ => ⟨errToJson invalidLocationBody, 400, false⟩)
          | _, _ => ⟨errToJson unexpectedBody, 500, false⟩
      | _, _ => ⟨errToJson unexpectedBody, 500, false⟩

/-- The `location` shapes rejected by the 400 check
(`not isinstance(location, list) or len(location) < 2`). -/
def locInvalid : Json → Bool
  | .arr l => l.length < 2
  | _ => true

/-! ### Helper lemmas about the validator and the parser -/

theorem jlookup_confFix_ne {k : String} (h : k ≠ "placement_confidence")
    (o : List (String × Json)) : jlookup k (confFix o) = jlookup k o :=
  jlookup_setKey_ne h _ o

theorem fixField_id {f : String} {o : List (String × Json)} {s : String}
    (hv : jlookup f o = some (.str s)) (hs : s.data ≠ []) (d : String) :
    fixField f d o = o := by
  unfold fixField
  rw [hv]
  have : falsy (.str s) = false := by
    simp [falsy, List.isEmpty_iff, hs]
  simp [this, isStr]

theorem setdefault_id {f : String} {o : List (String × Json)} {w : Json}
    (hv : jlookup f o = some w) (v : Json) : setdefault f v o = o := by
  unfold setdefault
  rw [hv]

theorem superFix_id {o : List (String × Json)} {s : String}
    (hv : jlookup "superimposed_image" o = some (.str s)) : superFix o = o := by
  unfold superFix
  rw [hv]
  simp [isStr]

theorem confFix_id {o : List (String × Json)} {q : ℚ}
    (hv : jlookup "placement_confidence" o = some (.num q))
    (h0 : 0 ≤ q) (h1 : q ≤ 1) : confFix o = o := by
  have hr : confResult o = q := by
    unfold confResult
    rw [hv]
    simp [pfloat]
    intro h
    rcases h with h | h
    · exact absurd h0 (not_le.mpr h)
    · exact absurd h1 (not_le.mpr h)
  unfold confFix
  rw [hr]
  exact setKey_of_jlookup hv

theorem stripFix_id {f : String} {o : List (String × Json)} {s : String}
    (hv : jlookup f o = some (.str s)) (hs : trimL s.data ≠ []) (d : String) :
    stripFix f d o = o := by
  unfold stripFix
  rw [hv]
  simp [List.isEmpty_iff, hs]

/-- The plant shape that the claimed round trip needs: the four required
fields are non-blank strings, the optional string fields are present strings,
and the confidence is a number already inside `[0,1]`. -/
def WellFormedPlant (o : List (String × Json)) : Prop :=
  (∃ s, jlookup "name" o = some (.str s) ∧ trimL s.data ≠ []) ∧
  (∃ s, jlookup "description" o = some (.str s) ∧ trimL s.data ≠ []) ∧
  (∃ s, jlookup "care_instructions" o = some (.str s) ∧ trimL s.data ≠ []) ∧
  (∃ s, jlookup "care_tips" o = some (.str s) ∧ trimL s.data ≠ []) ∧
  (∃ s, jlookup "image" o = some (.str s)) ∧
  (∃ s, jlookup "AR_model" o = some (.str s)) ∧
  (∃ s, jlookup "superimposed_image" o = some (.str s)) ∧
  (∃ q, jlookup "placement_confidence" o = some (.num q) ∧ 0 ≤ q ∧ q ≤ 1)

theorem trimL_ne_nil_of {l : List Char} (h : trimL l ≠ []) : l ≠ [] := by
  intro hl
  rw [hl] at h
  exact h rfl

theorem validatePlant_id {o : List (String × Json)} (h : WellFormedPlant o) :
    validatePlant (.obj o) = some (.obj o) := by
  obtain ⟨⟨sn, hn, hn'⟩, ⟨sd, hd, hd'⟩, ⟨si, hi, hi'⟩, ⟨st, ht, ht'⟩,
    ⟨so1, ho1⟩, ⟨so2, ho2⟩, ⟨so3, ho3⟩, ⟨q, hq, hq0, hq1⟩⟩ := h
  simp only [validatePlant]
  rw [fixField_id hn (trimL_ne_nil_of hn'),
      fixField_id hd (trimL_ne_nil_of hd'),
      fixField_id hi (trimL_ne_nil_of hi'),
      fixField_id ht (trimL_ne_nil_of ht'),
      setdefault_id ho1,
      setdefault_id ho2,
      superFix_id ho3,
      confFix_id hq hq0 hq1,
      stripFix_id hn hn', stripFix_id hd hd',
      stripFix_id hi hi', stripFix_id ht ht']

theorem filterMap_validate_id {l : List Json}
    (h : ∀ p ∈ l, validatePlant p = some p) :
    l.filterMap validatePlant = l := by
  induction l with
  | nil => rfl
  | cons hd tl ih =>
    rw [List.filterMap_cons, h hd (by simp)]
    rw [ih (fun p hp => h p (by simp [hp]))]

/-! ### Structure lemmas for `processParsedObj` -/

theorem ensureDescription_isSome (o : List (String × Json)) :
    (jlookup "description" (ensureDescription o)).isSome := by
  unfold ensureDescription
  split
  · rw [jlookup_setKey_self]; rfl
  · rename_i h
    cases hv : jlookup "description" o with
    | none => rw [hv] at h; simp at h
    | some _ => rfl

theorem ensureDescription_ne {k : String} (h : k ≠ "description")
    (o : List (String × Json)) :
    jlookup k (ensureDescription o) = jlookup k o := by
  unfold ensureDescription
  split
  · exact jlookup_setKey_ne h _ o
  · rfl

theorem ensurePlants_desc (o : List (String × Json)) :
    jlookup "description" (ensurePlants o) = jlookup "description" o := by
  unfold ensurePlants
  split
  · exact jlookup_setKey_ne (by decide) _ o
  · rfl

theorem ensurePlants_plants (o : List (String × Json)) :
    jlookup "plants" (ensurePlants o) = some (.arr fallbackPlants) ∨
      (jlookup "plants" (ensurePlants o) = jlookup "plants" o ∧
        (jlookup "plants" o).isSome) := by
  unfold ensurePlants
  split
  · left
    exact jlookup_setKey_self _ _ o
  · rename_i h
    right
    refine ⟨rfl, ?_⟩
    cases hv : jlookup "plants" o with
    | none => rw [hv] at h; simp at h
    | some _ => rfl

theorem fallbackPlants_ne_nil : fallbackPlants ≠ [] := by
  simp [fallbackPlants]

theorem wellFormed_spider : WellFormedPlant spiderPlantFields :=
  ⟨⟨_, rfl, by decide⟩, ⟨_, rfl, by decide⟩, ⟨_, rfl, by decide⟩,
   ⟨_, rfl, by decide⟩, ⟨_, rfl⟩, ⟨_, rfl⟩, ⟨_, rfl⟩,
   ⟨7/10, rfl, by norm_num, by norm_num⟩⟩

theorem wellFormed_pothos : WellFormedPlant pothosPlantFields :=
  ⟨⟨_, rfl, by decide⟩, ⟨_, rfl, by decide⟩, ⟨_, rfl, by decide⟩,
   ⟨_, rfl, by decide⟩, ⟨_, rfl⟩, ⟨_, rfl⟩, ⟨_, rfl⟩,
   ⟨4/5, rfl, by norm_num, by norm_num⟩⟩

theorem wellFormed_snake : WellFormedPlant snakePlantFields :=
  ⟨⟨_, rfl, by decide⟩, ⟨_, rfl, by decide⟩, ⟨_, rfl, by decide⟩,
   ⟨_, rfl, by decide⟩, ⟨_, rfl⟩, ⟨_, rfl⟩, ⟨_, rfl⟩,
   ⟨3/5, rfl, by norm_num, by norm_num⟩⟩

theorem validate_fallbackPlants :
    fallbackPlants.filterMap validatePlant = fallbackPlants := by
  apply filterMap_validate_id
  intro p hp
  simp only [fallbackPlants, List.mem_cons, List.not_mem_nil, or_false] at hp
  rcases hp with h | h | h <;> subst h
  · exact validatePlant_id wellFormed_spider
  · exact validatePlant_id wellFormed_pothos
  · exact validatePlant_id wellFormed_snake

/-- Behavior of the plants stage on an ensured object whose `plants` value
is an array. -/
theorem processPlantsStage_arr {o : List (String × Json)} {l : List Json}
    (h : jlookup "plants" o = some (.arr l)) :
    processPlantsStage o =
      (if (l.filterMap validatePlant).isEmpty then
        .obj (setKey "plants" (.arr fallbackPlants) o)
      else .obj (setKey "plants" (.arr (l.filterMap validatePlant)) o)) := by
  unfold processPlantsStage
  rw [h]
  rfl

/-- Behavior of the plants stage on an ensured object whose `plants` value
is not an array. -/
theorem processPlantsStage_nonarr {o : List (String × Json)} {v : Json}
    (h : jlookup "plants" o = some v) (hv : ∀ l, v ≠ .arr l) :
    processPlantsStage o = .obj (setKey "plants" (.arr fallbackPlants) o) := by
  unfold processPlantsStage
  rw [h]
  cases v with
  | arr l => exact absurd rfl (hv l)
  | null => rfl
  | bool b => rfl
  | num q => rfl
  | str t => rfl
  | obj oo => rfl

/-- Master lemma for the parsed-dict path: the result always carries a
`description` key and a non-empty `plants` array, which is either the
canonical fallback triple or the survivors of per-record validation of the
upstream `plants` array. -/
theorem processParsedObj_spec (o : List (String × Json)) :
    ∃ ps, jget (processParsedObj o) "plants" = some (.arr ps) ∧
      (jget (processParsedObj o) "description").isSome ∧ ps ≠ [] ∧
      (ps = fallbackPlants ∨
        ∃ l, jlookup "plants" o = some (.arr l) ∧
          ps = l.filterMap validatePlant) := by
  have hdesc1 :
      (jlookup "description" (ensurePlants (ensureDescription o))).isSome := by
    rw [ensurePlants_desc]
    exact ensureDescription_isSome o
  unfold processParsedObj
  rcases ensurePlants_plants (ensureDescription o) with hp | ⟨hp, hsome⟩
  · rw [processPlantsStage_arr hp, validate_fallbackPlants,
      if_neg (by simp [fallbackPlants])]
    refine ⟨fallbackPlants, ?_, ?_, fallbackPlants_ne_nil, Or.inl rfl⟩
    · simp only [jget]
      rw [jlookup_setKey_self]
    · simp only [jget]
      rw [jlookup_setKey_ne (by decide) _ _]
      exact hdesc1
  · rw [ensureDescription_ne (by decide)] at hp
    rw [ensureDescription_ne (by decide)] at hsome
    cases hv : jlookup "plants" o with
    | none => rw [hv] at hsome; simp at hsome
    | some v =>
      rw [hv] at hp
      cases v with
      | arr l =>
        rw [processPlantsStage_arr hp]
        by_cases hempty : (l.filterMap validatePlant).isEmpty
        · rw [if_pos hempty]
          refine ⟨fallbackPlants, ?_, ?_, fallbackPlants_ne_nil, Or.inl rfl⟩
          · simp only [jget]
            rw [jlookup_setKey_self]
          · simp only [jget]
            rw [jlookup_setKey_ne (by decide) _ _]
            exact hdesc1
        · rw [if_neg hempty]
          refine ⟨l.filterMap validatePlant, ?_, ?_, ?_, Or.inr ⟨l, rfl, rfl⟩⟩
          · simp only [jget]
            rw [jlookup_setKey_self]
          · simp only [jget]
            rw [jlookup_setKey_ne (by decide) _ _]
            exact hdesc1
          · simpa [List.isEmpty_iff] using hempty
      | null =>
        rw [processPlantsStage_nonarr hp (by intro l h; cases h)]
        exact ⟨fallbackPlants, by simp only [jget]; rw [jlookup_setKey_self],
          by simp only [jget]; rw [jlookup_setKey_ne (by decide) _ _]; exact hdesc1,
          fallbackPlants_ne_nil, Or.inl rfl⟩
      | bool b =>
        rw [processPlantsStage_nonarr hp (by intro l h; cases h)]
        exact ⟨fallbackPlants, by simp only [jget]; rw [jlookup_setKey_self],
          by simp only [jget]; rw [jlookup_setKey_ne (by decide) _ _]; exact hdesc1,
          fallbackPlants_ne_nil, Or.inl rfl⟩
      | num q =>
        rw [processPlantsStage_nonarr hp (by intro l h; cases h)]
        exact ⟨fallbackPlants, by simp only [jget]; rw [jlookup_setKey_self],
          by simp only [jget]; rw [jlookup_setKey_ne (by decide) _ _]; exact hdesc1,
          fallbackPlants_ne_nil, Or.inl rfl⟩
      | str t =>
        rw [processPlantsStage_nonarr hp (by intro l h; cases h)]
        exact ⟨fallbackPlants, by simp only [jget]; rw [jlookup_setKey_self],
          by simp only [jget]; rw [jlookup_setKey_ne (by decide) _ _]; exact hdesc1,
          fallbackPlants_ne_nil, Or.inl rfl⟩
      | obj oo =>
        rw [processPlantsStage_nonarr hp (by intro l h; cases h)]
        exact ⟨fallbackPlants, by simp only [jget]; rw [jlookup_setKey_self],
          by simp only [jget]; rw [jlookup_setKey_ne (by decide) _ _]; exact hdesc1,
          fallbackPlants_ne_nil, Or.inl rfl⟩

/-- Dispatch lemma: when text extraction succeeds and `json.loads` returns a
dict, the pipeline runs the dict path. -/
theorem processComprehensiveResponse_ok {resp : Option RawResponse}
    {parse : String → Option Json} {t : String}
    (h1 : extractStage resp = .ok t) :
    processComprehensiveResponse resp parse = parseStage t parse := by
  unfold processComprehensiveResponse
  rw [h1]

theorem processComprehensiveResponse_err {resp : Option RawResponse}
    {parse : String → Option Json} {r : String}
    (h1 : extractStage resp = .error r) :
    processComprehensiveResponse resp parse = fallbackResponse r := by
  unfold processComprehensiveResponse
  rw [h1]

theorem processComprehensiveResponse_obj {resp : Option RawResponse}
    {parse : String → Option Json} {t : String} {o : List (String × Json)}
    (h1 : extractStage resp = .ok t) (h2 : parse t = some (.obj o)) :
    processComprehensiveResponse resp parse = processParsedObj o := by
  rw [processComprehensiveResponse_ok h1]
  unfold parseStage
  rw [h2]

theorem ensurePlants_of_some {o : List (String × Json)} {w : Json}
    (h : jlookup "plants" o = some w) : ensurePlants o = o := by
  unfold ensurePlants
  rw [h]
  rfl

theorem ensureDescription_of_some {o : List (String × Json)} {w : Json}
    (h : jlookup "description" o = some w) : ensureDescription o = o := by
  unfold ensureDescription
  rw [h]
  rfl

/-- Shared helper: every pipeline result is an object with a `description`
key and a non-empty `plants` array. -/
theorem result_has_fields (resp : Option RawResponse)
    (parse : String → Option Json) :
    ∃ d ps,
      jget (processComprehensiveResponse resp parse) "description" = some d ∧
      jget (processComprehensiveResponse resp parse) "plants" =
        some (.arr ps) ∧
      ps ≠ [] := by
  cases h : extractStage resp with
  | error r =>
    rw [processComprehensiveResponse_err h]
    exact ⟨_, fallbackPlants, rfl, rfl, fallbackPlants_ne_nil⟩
  | ok t =>
    rw [processComprehensiveResponse_ok h]
    unfold parseStage
    cases hp : parse t with
    | none => exact ⟨_, fallbackPlants, rfl, rfl, fallbackPlants_ne_nil⟩
    | some j =>
      cases j with
      | obj o =>
        obtain ⟨ps, h1, h2, h3, _⟩ := processParsedObj_spec o
        obtain ⟨d, hd⟩ := Option.isSome_iff_exists.mp h2
        exact ⟨d, ps, hd, h1, h3⟩
      | null => exact ⟨_, fallbackPlants, rfl, rfl, fallbackPlants_ne_nil⟩
      | bool b => exact ⟨_, fallbackPlants, rfl, rfl, fallbackPlants_ne_nil⟩
      | num q => exact ⟨_, fallbackPlants, rfl, rfl, fallbackPlants_ne_nil⟩
      | str u => exact ⟨_, fallbackPlants, rfl, rfl, fallbackPlants_ne_nil⟩
      | arr l => exact ⟨_, fallbackPlants, rfl, rfl, fallbackPlants_ne_nil⟩

/-- C1: for every raw upstream response that reaches the parsing stage, the
processed result carries both a `description` key and a `plants` key, and
the plants list is never empty (so the result never has both an empty
description and an empty plant list). -/
theorem never_both_empty (resp : Option RawResponse)
    (parse : String → Option Json) :
    ∃ d ps,
      jget (processComprehensiveResponse resp parse) "description" = some d ∧
      jget (processComprehensiveResponse resp parse) "plants" =
        some (.arr ps) ∧
      ps ≠ [] :=
  result_has_fields resp parse

/-- A one-candidate, one-part upstream response whose text is `"x"`. -/
def sampleResp : Option RawResponse := some ⟨[⟨some ⟨[⟨some "x"⟩]⟩⟩]⟩

/-- C3: when the parsed `plants` list has zero surviving records, the final
plants are exactly the canonical fallback triple, in order: Spider Plant
(0.7), Pothos (0.8), Snake Plant (0.6). -/
theorem zero_survivors_fallback_triple (resp : Option RawResponse)
    (parse : String → Option Json) (t : String) (o : List (String × Json))
    (l : List Json)
    (h1 : extractStage resp = .ok t) (h2 : parse t = some (.obj o))
    (h3 : jlookup "plants" o = some (.arr l))
    (h4 : l.filterMap validatePlant = []) :
    jget (processComprehensiveResponse resp parse) "plants" =
      some (.arr fallbackPlants) ∧
    fallbackPlants = [spiderPlant, pothosPlant, snakePlant] ∧
    jget spiderPlant "name" = some (.str "Spider Plant") ∧
    jget spiderPlant "placement_confidence" = some (.num (7/10)) ∧
    jget pothosPlant "name" = some (.str "Pothos") ∧
    jget pothosPlant "placement_confidence" = some (.num (4/5)) ∧
    jget snakePlant "name" = some (.str "Snake Plant") ∧
    jget snakePlant "placement_confidence" = some (.num (3/5)) := by
  rw [processComprehensiveResponse_obj h1 h2]
  have hd : jlookup "plants" (ensureDescription o) = some (.arr l) := by
    rw [ensureDescription_ne (by decide)]
    exact h3
  unfold processParsedObj
  rw [ensurePlants_of_some hd, processPlantsStage_arr hd, h4,
    if_pos (show (List.isEmpty ([] : List Json)) = true from rfl)]
  refine ⟨?_, rfl, rfl, rfl, rfl, rfl, rfl, rfl⟩
  simp only [jget]
  rw [jlookup_setKey_self]

/-- Witness for C3: a plants list whose only record is the non-object `1`. -/
theorem zero_survivors_fallback_triple_witness :
    jget (processComprehensiveResponse sampleResp
        (fun _ => some (.obj [("plants", .arr [.num 1])]))) "plants" =
      some (.arr fallbackPlants) :=
  (zero_survivors_fallback_triple sampleResp
    (fun _ => some (.obj [("plants", .arr [.num 1])])) "x"
    [("plants", .arr [.num 1])] [.num 1] rfl rfl rfl rfl).1

/-- C7 (amended): every pipeline result has at least one plant, and the
5-entry ceiling holds exactly when the upstream `plants` array itself has at
most 5 entries — the code never truncates the list. -/
theorem plants_count_bounds :
    (∀ (resp : Option RawResponse) (parse : String → Option Json),
      1 ≤ plantsCount (processComprehensiveResponse resp parse)) ∧
    (∀ (resp : Option RawResponse) (parse : String → Option Json)
        (t : String) (o : List (String × Json)) (l : List Json),
      extractStage resp = .ok t → parse t = some (.obj o) →
      jlookup "plants" o = some (.arr l) → l.length ≤ 5 →
      plantsCount (processComprehensiveResponse resp parse) ≤ 5) := by
  constructor
  · intro resp parse
    obtain ⟨d, ps, hd, hp, hne⟩ := result_has_fields resp parse
    unfold plantsCount
    rw [hp]
    exact List.length_pos.mpr hne
  · intro resp parse t o l h1 h2 h3 hlen
    rw [processComprehensiveResponse_obj h1 h2]
    have hd : jlookup "plants" (ensureDescription o) = some (.arr l) := by
      rw [ensureDescription_ne (by decide)]
      exact h3
    unfold processParsedObj
    rw [ensurePlants_of_some hd, processPlantsStage_arr hd]
    by_cases hempty : (l.filterMap validatePlant).isEmpty
    · rw [if_pos hempty]
      unfold plantsCount
      simp only [jget]
      rw [jlookup_setKey_self]
      show fallbackPlants.length ≤ 5
      decide
    · rw [if_neg hempty]
      unfold plantsCount
      simp only [jget]
      rw [jlookup_setKey_self]
      show (l.filterMap validatePlant).length ≤ 5
      exact le_trans (List.length_filterMap_le _ _) hlen

/-- Witness for C7 at a two-record upstream plants array. -/
theorem plants_count_bounds_witness :
    plantsCount (processComprehensiveResponse sampleResp
      (fun _ => some (.obj [("plants",
        .arr [.obj [("name", .str "A")], .obj [("name", .str "B")]])]))) ≤ 5 :=
  plants_count_bounds.2 sampleResp
    (fun _ => some (.obj [("plants",
      .arr [.obj [("name", .str "A")], .obj [("name", .str "B")]])]))
    "x" [("plants", .arr [.obj [("name", .str "A")], .obj [("name", .str "B")]])]
    [.obj [("name", .str "A")], .obj [("name", .str "B")]]
    rfl rfl rfl (by decide)

/-- A parsed document carrying six valid plant records. -/
def sixPlantDoc : Json := .obj
  [ ("description", .str "d"),
    ("plants", .arr
      [ .obj [("name", .str "A")], .obj [("name", .str "B")],
        .obj [("name", .str "C")], .obj [("name", .str "D")],
        .obj [("name", .str "E")], .obj [("name", .str "F")] ]) ]

/-- Counterexample to C7 as stated: an upstream document with six valid
records yields a result with six plants — the pipeline never truncates to 5. -/
theorem plants_count_counterexample :
    plantsCount (processComprehensiveResponse sampleResp
        (fun _ => some sixPlantDoc)) = 6 ∧
      ¬ plantsCount (processComprehensiveResponse sampleResp
        (fun _ => some sixPlantDoc)) ≤ 5 := by
  have h6 : plantsCount (processComprehensiveResponse sampleResp
      (fun _ => some sixPlantDoc)) = 6 := rfl
  refine ⟨h6, ?_⟩
  rw [h6]
  decide

/-- Text reaching the JSON parser is never empty or all-whitespace (the
blank-text early return fires first). -/
theorem extractStage_ok_nonblank {resp : Option RawResponse} {t : String}
    (h : extractStage resp = .ok t) :
    t.data.isEmpty = false ∧ (trimL t.data).isEmpty = false := by
  unfold extractStage at h
  split at h
  · cases h
  · split at h
    · cases h
    · split at h
      · cases h
      · split at h
        · cases h
        · split at h
          · cases h
          · split at h
            · cases h
            · rename_i hb
              injection h with ht
              subst ht
              simp only [Bool.or_eq_true, not_or, Bool.not_eq_true] at hb
              exact ⟨hb.1, hb.2⟩

/-- On non-blank text the fallback response is the keyword-selected default
description plus the fallback plant list. -/
theorem fallbackResponse_nonblank {t : String}
    (h1 : t.data.isEmpty = false) (h2 : (trimL t.data).isEmpty = false) :
    fallbackResponse t = .obj
      [("description", .str (if containsAnyKeyword t then
          partialFallbackDescription else genericFallbackDescription)),
       ("plants", .arr fallbackPlants)] := by
  unfold fallbackResponse
  simp only [h1, h2, Bool.not_false, Bool.true_and]

/-- C5: when the extracted response text fails JSON parsing, the parser does
not raise: the result is the fallback response, whose description is the
"partial details available" default exactly when the raw text contains one
of the fixed keywords and the generic default otherwise, and whose plants
are the non-empty fallback list; handed to the endpoint as a normal return
value it is served with HTTP 200 (success, not error). -/
theorem parse_failure_fallback (resp : Option RawResponse)
    (parse : String → Option Json) (t : String)
    (h1 : extractStage resp = .ok t) (h2 : parse t = none) :
    processComprehensiveResponse resp parse = fallbackResponse t ∧
    jget (processComprehensiveResponse resp parse) "description" =
      some (.str (if containsAnyKeyword t then partialFallbackDescription
        else genericFallbackDescription)) ∧
    (if containsAnyKeyword t then partialFallbackDescription
      else genericFallbackDescription) ≠ "" ∧
    jget (processComprehensiveResponse resp parse) "plants" =
      some (.arr fallbackPlants) ∧
    fallbackPlants ≠ [] ∧
    (answer (some (.obj [("image", .str "img"),
        ("location", .arr [.num 0, .num 0])])) true
      (.ok (processComprehensiveResponse resp parse))).status = 200 := by
  have hnb := extractStage_ok_nonblank h1
  have hr : processComprehensiveResponse resp parse = fallbackResponse t := by
    rw [processComprehensiveResponse_ok h1]
    unfold parseStage
    rw [h2]
  have hfd := fallbackResponse_nonblank hnb.1 hnb.2
  refine ⟨hr, ?_, ?_, ?_, fallbackPlants_ne_nil, rfl⟩
  · rw [hr, hfd]
    rfl
  · by_cases hk : containsAnyKeyword t
    · rw [if_pos hk]
      decide
    · rw [if_neg hk]
      decide
  · rw [hr, hfd]
    rfl

/-- Witness for C5 at the response text `"x"` with a failing parse. -/
theorem parse_failure_fallback_witness :
    processComprehensiveResponse sampleResp (fun _ => none) =
      fallbackResponse "x" :=
  (parse_failure_fallback sampleResp (fun _ => none) "x" rfl rfl).1

/-- C6 (amended): a well-formed upstream document — a dict with a
`description` key and a non-empty `plants` array whose records are objects
with non-blank required string fields, present string optional fields, and
an in-range numeric confidence — passes through the pipeline completely
unchanged. -/
theorem wellformed_roundtrip (resp : Option RawResponse)
    (parse : String → Option Json) (t : String) (o : List (String × Json))
    (l : List Json)
    (h1 : extractStage resp = .ok t) (h2 : parse t = some (.obj o))
    (hdesc : ∃ w, jlookup "description" o = some w)
    (hpl : jlookup "plants" o = some (.arr l)) (hne : l ≠ [])
    (hwf : ∀ p ∈ l, ∃ po, p = .obj po ∧ WellFormedPlant po) :
    processComprehensiveResponse resp parse = .obj o := by
  rw [processComprehensiveResponse_obj h1 h2]
  obtain ⟨w, hw⟩ := hdesc
  unfold processParsedObj
  rw [ensureDescription_of_some hw, ensurePlants_of_some hpl,
    processPlantsStage_arr hpl]
  have hid : l.filterMap validatePlant = l :=
    filterMap_validate_id (fun p hp => by
      obtain ⟨po, rfl, hwfp⟩ := hwf p hp
      exact validatePlant_id hwfp)
  rw [hid, if_neg (by simpa [List.isEmpty_iff] using hne),
    setKey_of_jlookup hpl]

/-- Witness for C6 at a one-plant well-formed document. -/
theorem wellformed_roundtrip_witness :
    processComprehensiveResponse sampleResp
        (fun _ => some (.obj [("description", .str "nice spot"),
          ("plants", .arr [spiderPlant])])) =
      .obj [("description", .str "nice spot"),
        ("plants", .arr [spiderPlant])] :=
  wellformed_roundtrip sampleResp
    (fun _ => some (.obj [("description", .str "nice spot"),
      ("plants", .arr [spiderPlant])])) "x"
    [("description", .str "nice spot"), ("plants", .arr [spiderPlant])]
    [spiderPlant] rfl rfl ⟨.str "nice spot", rfl⟩ rfl (by simp)
    (fun p hp => by
      simp only [List.mem_singleton] at hp
      subst hp
      exact ⟨spiderPlantFields, rfl, wellFormed_spider⟩)

/-- Counterexample to C6 as stated: a schema-conforming document whose
`plants` array is empty (vacuously a list of valid records) is not returned
unchanged — its plants are replaced by the fallback triple. -/
theorem roundtrip_counterexample :
    processComprehensiveResponse sampleResp
        (fun _ => some (.obj [("description", .str "d"),
          ("plants", .arr [])])) =
      .obj [("description", .str "d"),
        ("plants", .arr fallbackPlants)] ∧
    processComprehensiveResponse sampleResp
        (fun _ => some (.obj [("description", .str "d"),
          ("plants", .arr [])])) ≠
      .obj [("description", .str "d"), ("plants", .arr [])] := by
  have h : processComprehensiveResponse sampleResp
      (fun _ => some (.obj [("description", .str "d"),
        ("plants", .arr [])])) =
      .obj [("description", .str "d"),
        ("plants", .arr fallbackPlants)] := rfl
  refine ⟨h, ?_⟩
  rw [h]
  intro he
  simp [fallbackPlants] at he

/-- The substring classifier factors through the kind: content is a function
of the first matching branch. -/
theorem handleApiErrors_eq_contentFor (m : String) :
    handleApiErrors (some m) = contentFor (classifyKind m) := by
  simp only [handleApiErrors, classifyKind]
  split_ifs <;> rfl

/-- C2 (amended): fallback content follows the fixed-priority substring
classification exactly as stated (empty plant list for Auth and ImageInvalid,
the fallback triple otherwise), but the transport status is keyed on the
exception's `error_type` tag in the endpoint, not on the substring kind:
auth→401, quota→429, network/api→503, validation/image→400, otherwise 500.
On the model-invocation path the three quoted examples do line up: messages
containing "quota"/"permission"/"timeout" are tagged quota/auth/api and
served with 429/401/503, matching their Quota/Auth/Network content. -/
theorem classifier_content_and_status :
    (∀ m : String, handleApiErrors (some m) = contentFor (classifyKind m)) ∧
    (∀ m : String,
      (classifyKind m = .auth ∨ classifyKind m = .imageInvalid) →
      (handleApiErrors (some m)).plants = []) ∧
    (∀ m : String, classifyKind m ≠ .auth → classifyKind m ≠ .imageInvalid →
      (handleApiErrors (some m)).plants = fallbackPlants) ∧
    (statusOf "auth" = 401 ∧ statusOf "quota" = 429 ∧
      statusOf "network" = 503 ∧ statusOf "api" = 503 ∧
      statusOf "validation" = 400 ∧ statusOf "image" = 400 ∧
      statusOf "malformed" = 500 ∧ statusOf "general" = 500) ∧
    (classifyKind "quota exceeded" = .quota ∧
      statusOf (categorizeApiError "quota exceeded") = 429) ∧
    (classifyKind "permission denied" = .auth ∧
      statusOf (categorizeApiError "permission denied") = 401) ∧
    (classifyKind "request timeout" = .network ∧
      statusOf (categorizeApiError "request timeout") = 503) := by
  refine ⟨handleApiErrors_eq_contentFor, ?_, ?_,
    ⟨by decide, by decide, by decide, by decide, by decide, by decide,
      by decide, by decide⟩,
    ⟨by decide, by decide⟩, ⟨by decide, by decide⟩, ⟨by decide, by decide⟩⟩
  · intro m h
    rw [handleApiErrors_eq_contentFor m]
    rcases h with h | h <;> rw [h] <;> rfl
  · intro m hA hI
    rw [handleApiErrors_eq_contentFor m]
    cases hk : classifyKind m with
    | auth => exact absurd hk hA
    | imageInvalid => exact absurd hk hI
    | quota => rfl
    | network => rfl
    | malformed => rfl
    | serviceUnavailable => rfl
    | general => rfl

/-- Witness for C2 at the message `"permission denied"`. -/
theorem classifier_content_and_status_witness :
    (handleApiErrors (some "permission denied")).plants = [] :=
  classifier_content_and_status.2.1 "permission denied" (Or.inl (by decide))

/-- The failure text produced by a corrupt image upload: image preparation
wraps the PIL failure as
`GeminiAPIError("Image processing failed: Invalid or corrupted image
format: ...", "image")`. -/
def corruptImageFailure : String :=
  "Image processing failed: Invalid or corrupted image format: truncated file"

/-- Counterexample to C2 as stated: on this reachable failure the substring
classifier picks the Malformed kind (first match is `"format"`), whose
claimed status is 500, but the endpoint serves the exception's `error_type`
`"image"` as 400 — the substring-derived kind does not determine the
transport status. -/
theorem classifier_status_counterexample :
    classifyKind corruptImageFailure = .malformed ∧
    kindStatus ErrorKind.malformed = 500 ∧
    statusOf "image" = 400 ∧
    statusOf "image" ≠ kindStatus (classifyKind corruptImageFailure) :=
  ⟨by decide, rfl, by decide, by decide⟩

/-- A message prefixed by the outer image-preparation wrapper never equals
the oversize message. -/
theorem prepare_wrap_ne_tooLarge (m : String) :
    ("Failed to prepare image: " ++ m) ≠ tooLargeMsg := by
  intro h
  have h1 : ("Failed to prepare image: " ++ m).data.get? 0 = some 'F' := rfl
  rw [h] at h1
  exact absurd h1 (by decide)

/-- A message prefixed by the corrupted-format wrapper never equals the
oversize message. -/
theorem corrupt_wrap_ne_tooLarge (m : String) :
    ("Invalid or corrupted image format: " ++ m) ≠ tooLargeMsg := by
  intro h
  have h1 : ("Invalid or corrupted image format: " ++ m).data.get? 1 =
      some 'n' := rfl
  rw [h] at h1
  exact absurd h1 (by decide)

/-- C8 (amended): a loadable decoded payload over 10 MB fails with the
oversize ImageInvalid error; a payload at or below the limit is never
rejected for size; and every image-preparation failure carries the
ImageInvalid `error_type` — but an unloadable oversized payload fails on
format before the size check runs, so the size limit is only cited for
loadable payloads. -/
theorem oversize_image_rejection (d : DecodedImage) :
    (d.pilLoadable = true → imageSizeLimit < d.byteLen →
      prepareDecodedImage d = .error (tooLargeMsg, "image")) ∧
    (d.byteLen ≤ imageSizeLimit →
      prepareDecodedImage d ≠ .error (tooLargeMsg, "image")) ∧
    (∀ m ty, prepareDecodedImage d = .error (m, ty) → ty = "image") := by
  refine ⟨?_, ?_, ?_⟩
  · intro hl hb
    unfold prepareDecodedImage
    rw [if_pos hl, if_pos hb]
  · intro hb
    unfold prepareDecodedImage
    by_cases hl : d.pilLoadable = true
    · rw [if_pos hl, if_neg (not_lt.mpr hb)]
      intro h
      cases h
    · rw [if_neg hl]
      split
      · intro h
        injection h with hp
        exact prepare_wrap_ne_tooLarge _ (congrArg Prod.fst hp)
      · intro h
        injection h with hp
        exact corrupt_wrap_ne_tooLarge _ (congrArg Prod.fst hp)
  · intro m ty h
    unfold prepareDecodedImage at h
    by_cases hl : d.pilLoadable = true
    · rw [if_pos hl] at h
      by_cases hb : imageSizeLimit < d.byteLen
      · rw [if_pos hb] at h
        injection h with hp
        exact (congrArg Prod.snd hp).symm
      · rw [if_neg hb] at h
        cases h
    · rw [if_neg hl] at h
      split at h <;> (injection h with hp; exact (congrArg Prod.snd hp).symm)

/-- Witness for C8 at a loadable payload one byte over the limit. -/
theorem oversize_image_rejection_witness :
    prepareDecodedImage ⟨imageSizeLimit + 1, true, ""⟩ =
      .error (tooLargeMsg, "image") :=
  (oversize_image_rejection ⟨imageSizeLimit + 1, true, ""⟩).1 rfl
    (Nat.lt_succ_self _)

/-- An oversized payload whose bytes PIL cannot load. -/
def oversizedBadImage : DecodedImage :=
  ⟨imageSizeLimit + 1, false, "cannot identify image file"⟩

/-- Counterexample to C8 as stated: an oversized payload that is not a
loadable image fails with the corrupted-format message, which does not cite
the size limit — the oversize error is not independent of image validity. -/
theorem oversize_image_counterexample :
    prepareDecodedImage oversizedBadImage =
      .error ("Invalid or corrupted image format: cannot identify image file",
        "image") ∧
    strContains "Invalid or corrupted image format: cannot identify image file"
      "too large" = false ∧
    "Invalid or corrupted image format: cannot identify image file" ≠
      tooLargeMsg :=
  ⟨rfl, by decide, by decide⟩

/-- C9: a request whose `location` is not a list of at least two components
is answered 400 by the input-validation check, and the comprehensive
analysis call is never reached — no external call occurs. -/
theorem short_location_no_external_call (o : List (String × Json))
    (img loc : Json) (clientOk : Bool)
    (analyze : Except (String × String) Json)
    (h1 : jlookup "image" o = some img)
    (h2 : jlookup "location" o = some loc)
    (h3 : locInvalid loc = true) :
    (answer (some (.obj o)) clientOk analyze).status = 400 ∧
    (answer (some (.obj o)) clientOk analyze).analyzeInvoked = false := by
  have hne : falsy (.obj o) = false := by
    cases o with
    | nil => simp [jlookup] at h1
    | cons a rest => rfl
  cases loc with
  | arr l =>
    have hlen : l.length < 2 := of_decide_eq_true h3
    constructor <;> simp [answer, hne, jsonContains, jsonGet2, h1, h2, hlen]
  | null =>
    constructor <;> simp [answer, hne, jsonContains, jsonGet2, h1, h2]
  | bool b =>
    constructor <;> simp [answer, hne, jsonContains, jsonGet2, h1, h2]
  | num q =>
    constructor <;> simp [answer, hne, jsonContains, jsonGet2, h1, h2]
  | str u =>
    constructor <;> simp [answer, hne, jsonContains, jsonGet2, h1, h2]
  | obj oo =>
    constructor <;> simp [answer, hne, jsonContains, jsonGet2, h1, h2]

/-- Witness for C9 at a length-1 location array. -/
theorem short_location_no_external_call_witness :
    (answer (some (.obj [("image", .str "x"), ("location", .arr [.num 1])]))
      true (.ok .null)).status = 400 ∧
    (answer (some (.obj [("image", .str "x"), ("location", .arr [.num 1])]))
      true (.ok .null)).analyzeInvoked = false :=
  short_location_no_external_call
    [("image", .str "x"), ("location", .arr [.num 1])]
    (.str "x") (.arr [.num 1]) true (.ok .null) rfl rfl (by decide)

/-- C10: the error handler is total — for every failure, including the one
that lands in its own last-resort clause (`none`), it returns a payload with
a non-empty description, a plants list (empty or the fallback triple), and a
non-empty error string. -/
theorem error_handler_total (msg : Option String) :
    (handleApiErrors msg).description ≠ "" ∧
    (handleApiErrors msg).error ≠ "" ∧
    ((handleApiErrors msg).plants = [] ∨
      (handleApiErrors msg).plants = fallbackPlants) := by
  cases msg with
  | none => exact ⟨by decide, by decide, Or.inl rfl⟩
  | some m =>
    simp only [handleApiErrors]
    split_ifs <;>
      first
        | exact ⟨by decide, by decide, Or.inl rfl⟩
        | exact ⟨by decide, by decide, Or.inr rfl⟩

end Greenify
